import Mathlib

/-!
Verification of the StudyBuddy RAG backend against its specification.

The Python sources under `backend/app/` are shallowly embedded below:
pure functions become Lean functions, Python exceptions become `Except`,
Python `float` payloads that are merely stored (never computed with) are
abstracted by a type parameter `α`, and the numeric similarity computation
is modelled over `ℝ`.  Third-party collaborators (the langchain text
splitter, the SentenceTransformer model, the Anthropic client, ChromaDB)
are not part of the repository; where a claim quantifies over their
behaviour they appear as opaque function parameters, and where a claim
depends on their concrete behaviour they are modelled from the spec, as
noted on the definition.
-/

namespace StudyBuddy

/-- Embedded from `src/backend/app/models.py` lines 6-12 (`FileType`):
the fixed enumeration of supported document types. -/
inductive FileType
  | pdf
  | txt
  | docx
deriving DecidableEq, Repr

/-- Embedded from `src/backend/app/models.py` lines 14-26 (`DocumentMetaData`).
`upload_date` (a wall-clock timestamp defaulted to `datetime.now()`) is
modelled as an abstract `Nat` tick. -/
structure DocumentMetaData where
  filename : String
  file_type : FileType
  upload_date : Nat := 0
  total_chunks : Nat := 0
  file_size_bytes : Nat
deriving DecidableEq, Repr

/-- Embedded from `src/backend/app/models.py` lines 80-91 (`DocumentChunk`).
The source declares `chunk_index`, `start_char` and `end_char` as `str`
(lines 87-89), so a validated chunk carries them as strings.  The embedding
payload is a list over an abstract scalar type `α` (Python `float`); it is
stored, never computed with, in the embedded code. -/
structure DocumentChunk (α : Type) where
  chunk_id : String
  document_id : String
  text : String
  chunk_index : String
  start_char : String
  end_char : String
  embedding : Option (List α) := none
  metadata : DocumentMetaData
deriving DecidableEq, Repr

/-- A Python value passed as a pydantic constructor argument by the
embedded code: a `str`, or a (non-negative) `int`. -/
inductive PyVal
  | str (s : String)
  | int (n : Nat)
deriving DecidableEq, Repr

/-- One entry of a pydantic v2 `ValidationError`: the offending field and
its message. -/
structure FieldError where
  loc : String
  msg : String
deriving DecidableEq, Repr

/-- A pydantic v2 `ValidationError`: the collected field errors. -/
structure PyValidationError where
  errors : List FieldError
deriving DecidableEq, Repr

/-- The errors a `str`-declared pydantic v2 field reports for an argument:
a Python `str` validates, an `int` is rejected — pydantic v2 performs no
int-to-str coercion. -/
def strFieldErrs (loc : String) : PyVal → List FieldError
  | .str _ => []
  | .int _ => [{ loc := loc, msg := "Input should be a valid string" }]

/-- The pydantic model construction `DocumentChunk(...)` as called at
document_services.py lines 198-206: `chunk_id`, `document_id` and `text`
are declared `str` and receive strings; `chunk_index`, `start_char` and
`end_char` are also declared `str` (models.py lines 87-89) and receive
whatever Python value the caller passes; the field errors are collected
and any failure raises `ValidationError`. -/
def mkDocumentChunk (α : Type) (chunk_id document_id text : String)
    (chunk_index start_char end_char : PyVal) (metadata : DocumentMetaData) :
    Except PyValidationError (DocumentChunk α) :=
  match chunk_index, start_char, end_char with
  | .str ci, .str sc, .str ec =>
    .ok { chunk_id := chunk_id, document_id := document_id, text := text
          chunk_index := ci, start_char := sc, end_char := ec
          embedding := none, metadata := metadata }
  | ci, sc, ec =>
    .error { errors := strFieldErrs "chunk_index" ci
               ++ strFieldErrs "start_char" sc ++ strFieldErrs "end_char" ec }

/-- The `ValidationError` every `DocumentChunk(...)` call of `create_chunks`
raises: all three `str`-declared bookkeeping fields receive ints. -/
def chunkStrFieldErrors : PyValidationError :=
  { errors :=
      [{ loc := "chunk_index", msg := "Input should be a valid string" },
       { loc := "start_char", msg := "Input should be a valid string" },
       { loc := "end_char", msg := "Input should be a valid string" }] }

/-- The loop of `DocumentService.create_chunks`
(`src/backend/app/services/document_services.py` lines 194-209), carrying
the running index `idx` and cursor `pos` (`current_pos` in the source):
each iteration constructs a pydantic `DocumentChunk` with
`chunk_index=idx`, `start_char=current_pos`,
`end_char=current_pos + len(chunk_text)` — ints passed to `str`-declared
fields — and appends it; a raised `ValidationError` aborts the loop and
propagates to the caller. -/
def create_chunksAux (α : Type) (document_id : String) (metadata : DocumentMetaData) :
    List String → Nat → Nat → Except PyValidationError (List (DocumentChunk α))
  | [], _, _ => .ok []
  | t :: ts, idx, pos =>
    match mkDocumentChunk α (document_id ++ "_chunk_" ++ toString idx)
        document_id t (.int idx) (.int pos) (.int (pos + t.length)) metadata with
    | .error e => .error e
    | .ok chunk =>
      match create_chunksAux α document_id metadata ts (idx + 1) (pos + t.length) with
      | .error e => .error e
      | .ok chunks => .ok (chunk :: chunks)

/-- Embedded from `DocumentService.create_chunks`
(`src/backend/app/services/document_services.py` lines 178-209).
The delegated `self.text_splitter.split_text` (third-party langchain
`RecursiveCharacterTextSplitter`, configured in `__init__` lines 31-35) is
the parameter `split_text`; the rest is the source loop, whose pydantic
chunk construction may raise. -/
def create_chunks (α : Type) (split_text : String → List String)
    (text : String) (document_id : String) (metadata : DocumentMetaData) :
    Except PyValidationError (List (DocumentChunk α)) :=
  create_chunksAux α document_id metadata (split_text text) 0 0

theorem create_chunksAux_cons (α : Type) (docid : String) (md : DocumentMetaData)
    (t : String) (ts : List String) (idx pos : Nat) :
    create_chunksAux α docid md (t :: ts) idx pos = .error chunkStrFieldErrors := rfl

/-- Concrete metadata value reused by the witness theorems. -/
def md0 : DocumentMetaData :=
  { filename := "f.txt", file_type := FileType.txt, file_size_bytes := 1 }

/-- C1 evaluated against the pydantic model: `DocumentChunk` declares
`chunk_index`, `start_char` and `end_char` as `str` (models.py lines
87-89) while `create_chunks` passes ints (document_services.py lines
202-204), so for every splitter output with at least one segment the
construction of chunk 0 raises `ValidationError` and `create_chunks`
returns no chunks at all — the claimed id/index/offset bookkeeping is the
evident intent of the loop but is never delivered; only an empty split
returns normally, with the empty chunk list. -/
theorem claim_c1_chunks_validation_error (α : Type)
    (split_text : String → List String) (text docid : String)
    (md : DocumentMetaData) :
    (split_text text ≠ [] →
        create_chunks α split_text text docid md = .error chunkStrFieldErrors)
    ∧ (split_text text = [] →
        create_chunks α split_text text docid md = .ok []) := by
  constructor
  · intro h
    unfold create_chunks
    rcases hsplit : split_text text with _ | ⟨t, ts⟩
    · exact absurd hsplit h
    · exact create_chunksAux_cons α docid md t ts 0 0
  · intro h
    unfold create_chunks
    rw [h]
    rfl

/-- Witness for C1: a concrete two-segment split raises the collected
`ValidationError` on the str-declared fields; an empty split returns the
empty chunk list. -/
theorem claim_c1_chunks_validation_error_witness :
    create_chunks Nat (fun _ => ["ab", "cde"]) "x" "d" md0
      = .error chunkStrFieldErrors
    ∧ create_chunks Nat (fun _ => []) "x" "d" md0 = .ok [] :=
  ⟨(claim_c1_chunks_validation_error Nat (fun _ => ["ab", "cde"]) "x" "d" md0).1
      (by decide),
   (claim_c1_chunks_validation_error Nat (fun _ => []) "x" "d" md0).2 rfl⟩

/-- Embedded from `EmbeddingService.embed_texts`
(`src/backend/app/services/embedding_services.py` lines 65-101): an empty
input list returns `[]` before touching the model; otherwise the batch
`self.model.encode(texts, ...)` runs.  The third-party SentenceTransformer
batch encoder returns one vector per input text in input order (library
contract, and spec section 4.3 batch/single equivalence), so it is
abstracted as the per-text encoder `enc` mapped over the batch. -/
def embed_texts {α : Type} (enc : String → List α) (texts : List String) :
    List (List α) :=
  match texts with
  | [] => []
  | _ :: _ => texts.map enc

/-- The `for chunk, embedding in zip(chunks, embeddings)` assignment loop of
`EmbeddingService.embed_chunks` (lines 133-134): `zip` stops at the shorter
list, mutated chunks keep their order, and the remaining chunks (when the
embedding list is exhausted) are returned unchanged, since the source
returns the original `chunks` list. -/
def embedAssign {α : Type} :
    List (DocumentChunk α) → List (List α) → List (DocumentChunk α)
  | c :: cs, e :: es => { c with embedding := some e } :: embedAssign cs es
  | cs, [] => cs
  | [], _ :: _ => []

/-- Embedded from `EmbeddingService.embed_chunks`
(`src/backend/app/services/embedding_services.py` lines 104-138): empty
input short-circuits to `[]`; otherwise the chunk texts are extracted,
embedded as a batch, and assigned back onto the chunks in order. -/
def embed_chunks {α : Type} (enc : String → List α)
    (chunks : List (DocumentChunk α)) : List (DocumentChunk α) :=
  match chunks with
  | [] => []
  | _ :: _ => embedAssign chunks (embed_texts enc (chunks.map (fun c => c.text)))

theorem embedAssign_map {α : Type} (enc : String → List α) :
    ∀ (cs : List (DocumentChunk α)),
      embedAssign cs ((cs.map (fun c => c.text)).map enc)
        = cs.map (fun c => { c with embedding := some (enc c.text) }) := by
  intro cs
  induction cs with
  | nil => rfl
  | cons c cs ih => simp [embedAssign, ← ih]

/-- C4: `embed_chunks []` and `embed_texts []` both return `[]` (not an
error), and on any chunk list `embed_chunks` returns the same chunks in the
same order, the embedding of chunk `i` populated from the embedding of the
own text of chunk `i` — the right-hand `map` pairs texts and embeddings
positionally. -/
theorem claim_c4_embed_chunks_positional {α : Type} (enc : String → List α) :
    embed_texts enc [] = []
    ∧ embed_chunks enc ([] : List (DocumentChunk α)) = []
    ∧ ∀ (chunks : List (DocumentChunk α)),
        embed_chunks enc chunks
          = chunks.map (fun c => { c with embedding := some (enc c.text) }) := by
  refine ⟨rfl, rfl, ?_⟩
  intro chunks
  cases chunks with
  | nil => rfl
  | cons c cs =>
    show embedAssign (c :: cs) (embed_texts enc ((c :: cs).map (fun c => c.text))) = _
    rw [show embed_texts enc ((c :: cs).map (fun c => c.text))
          = ((c :: cs).map (fun c => c.text)).map enc from rfl]
    exact embedAssign_map enc (c :: cs)

/-- Embedded from `src/backend/app/models.py` lines 37-48 (`QueryRequest`):
the validated request as stored after construction succeeds. -/
structure QueryRequest where
  question : String
  document_ids : Option (List String) := none
  num_contexts : Int := 4
deriving DecidableEq, Repr

/-- Raw constructor input for `QueryRequest`: `num_contexts = none` models an
omitted field (pydantic then applies the declared default `4`). -/
structure QueryRequestInput where
  question : String
  document_ids : Option (List String) := none
  num_contexts : Option Int := none
deriving DecidableEq, Repr

/-- Python `str.strip()` with no argument: drop leading and trailing
whitespace characters. -/
def pyStrip (s : String) : String :=
  ⟨((s.data.dropWhile Char.isWhitespace).reverse.dropWhile Char.isWhitespace).reverse⟩

/-- Embedded pydantic validation of `QueryRequest`
(`src/backend/app/models.py` lines 41-62): the field constraints
`min_length=1` and `max_length=100` check the raw question, the
after-mode validator `question_not_empty` (lines 50-62) strips whitespace,
rejects the empty result and stores the stripped text, and `num_contexts`
must satisfy `ge=1`, `le=10` with default `4`. -/
def validateQueryRequest (inp : QueryRequestInput) : Except String QueryRequest :=
  if inp.question.length < 1 then
    .error "String should have at least 1 character"
  else if 100 < inp.question.length then
    .error "String should have at most 100 characters"
  else if pyStrip inp.question = "" then
    .error "Question cannot be empty or whitespace"
  else if inp.num_contexts.getD 4 < 1 then
    .error "Input should be greater than or equal to 1"
  else if 10 < inp.num_contexts.getD 4 then
    .error "Input should be less than or equal to 10"
  else
    .ok { question := pyStrip inp.question
          document_ids := inp.document_ids
          num_contexts := inp.num_contexts.getD 4 }

/-- C5: a query request is accepted only when the question is non-empty
after trimming (a whitespace-only question is a validation error) and the
stored question is the trimmed text; `num_contexts` is accepted only within
`1..10` and defaults to `4` when omitted. -/
theorem claim_c5_query_validation (inp : QueryRequestInput) :
    (∀ q, validateQueryRequest inp = .ok q →
        q.question = pyStrip inp.question ∧ q.question ≠ ""
        ∧ 1 ≤ q.num_contexts ∧ q.num_contexts ≤ 10
        ∧ (inp.num_contexts = none → q.num_contexts = 4))
    ∧ (pyStrip inp.question = "" → ∀ q, validateQueryRequest inp ≠ .ok q)
    ∧ (∀ n, inp.num_contexts = some n → n < 1 ∨ 10 < n →
        ∀ q, validateQueryRequest inp ≠ .ok q) := by
  refine ⟨?_, ?_, ?_⟩
  · intro q hq
    unfold validateQueryRequest at hq
    split_ifs at hq with h1 h2 h3 h4 h5
    all_goals simp only [Except.ok.injEq, reduceCtorEq] at hq
    subst hq
    refine ⟨rfl, h3, ?_, ?_, ?_⟩
    · show (1 : Int) ≤ inp.num_contexts.getD 4
      omega
    · show inp.num_contexts.getD 4 ≤ (10 : Int)
      omega
    · intro hnone
      show inp.num_contexts.getD 4 = (4 : Int)
      simp [hnone]
  · intro htrim q hq
    unfold validateQueryRequest at hq
    split_ifs at hq
  · intro n hn hout q hq
    unfold validateQueryRequest at hq
    split_ifs at hq with h1 h2 h3 h4 h5
    all_goals simp only [Except.ok.injEq, reduceCtorEq] at hq
    rw [hn] at h4 h5
    simp [Option.getD] at h4 h5
    omega

/-- Witness for C5: a concrete padded question with `num_contexts` omitted
is accepted, stored trimmed, and given the default context count. -/
theorem claim_c5_query_validation_witness :
    ({ question := "What is AI?", document_ids := none,
        num_contexts := 4 } : QueryRequest).question
      = pyStrip "  What is AI?  "
    ∧ ({ question := "What is AI?", document_ids := none,
          num_contexts := 4 } : QueryRequest).num_contexts = 4 := by
  have h := (claim_c5_query_validation { question := "  What is AI?  " }).1
      { question := "What is AI?", document_ids := none, num_contexts := 4 }
      (by rfl)
  exact ⟨h.1, h.2.2.2.2 rfl⟩

/-- The extraction failure kind of the error taxonomy of the spec (section 7);
the source realises it as `ValueError` at
`src/backend/app/services/document_services.py` line 165. -/
structure ExtractionError where
  msg : String
deriving DecidableEq, Repr

/-- Python `max(results, key=lambda x: len(x[1]))` over the cleaned texts
(document_services.py line 161): scan keeping the current best, replacing it
only on strictly greater length, so the earliest maximal element wins. -/
def maxByLen : String → List String → String
  | best, [] => best
  | best, t :: ts => maxByLen (if best.length < t.length then t else best) ts

/-- Embedded from `DocumentService._extract_pdf`
(`src/backend/app/services/document_services.py` lines 120-165),
parameterised by the cleanup pass `clean` (`_clean_text`, lines 82-118) and
by the outcomes of the third-party extraction libraries: `attempts` lists,
in source order (pdfplumber then pypdf), `none` when the method raised and
`some raw` when it returned the joined page text `raw`.  A method
contributes `clean raw` to `results` only when `raw` is non-empty
(lines 143-144 and 154-155); the longest cleaned result is returned
(line 161); with no results a `ValueError("Could not extract text from
PDF")` is raised (line 165). -/
def extract_pdf (clean : String → String) (attempts : List (Option String)) :
    Except ExtractionError String :=
  match ((attempts.filterMap id).filter (fun t => t ≠ "")).map clean with
  | [] => .error ⟨"Could not extract text from PDF"⟩
  | r :: rs => .ok (maxByLen r rs)

theorem maxByLen_mem : ∀ (ts : List String) (best : String),
    maxByLen best ts = best ∨ maxByLen best ts ∈ ts := by
  intro ts
  induction ts with
  | nil => intro best; exact Or.inl rfl
  | cons t ts ih =>
    intro best
    have hstep : maxByLen best (t :: ts)
        = maxByLen (if best.length < t.length then t else best) ts := rfl
    rcases ih (if best.length < t.length then t else best) with h | h
    · rw [hstep, h]
      split
      · exact Or.inr (List.mem_cons_self _ _)
      · exact Or.inl rfl
    · rw [hstep]
      exact Or.inr (List.mem_cons_of_mem _ h)

theorem maxByLen_le : ∀ (ts : List String) (best : String),
    best.length ≤ (maxByLen best ts).length
    ∧ ∀ t ∈ ts, t.length ≤ (maxByLen best ts).length := by
  intro ts
  induction ts with
  | nil => intro best; exact ⟨Nat.le_refl _, by intro t ht; simp at ht⟩
  | cons t ts ih =>
    intro best
    have hbest : best.length ≤ (if best.length < t.length then t else best).length := by
      split <;> omega
    have ht : t.length ≤ (if best.length < t.length then t else best).length := by
      split <;> omega
    have h := ih (if best.length < t.length then t else best)
    refine ⟨Nat.le_trans hbest h.1, ?_⟩
    intro u hu
    rcases List.mem_cons.mp hu with rfl | hu
    · exact Nat.le_trans ht h.1
    · exact h.2 u hu

/-- C3 counterexample: when no PDF strategy yields raw text, the source
fails with the message "Could not extract text from PDF"
(document_services.py line 165), not the message quoted in the spec,
`ExtractionError("no text extracted")`. -/
theorem claim_c3_counterexample :
    extract_pdf id [none, none] = .error ⟨"Could not extract text from PDF"⟩
    ∧ (⟨"Could not extract text from PDF"⟩ : ExtractionError)
        ≠ ⟨"no text extracted"⟩ :=
  ⟨rfl, by decide⟩

/-- C3 (amended): PDF extraction runs the strategies, cleans each successful
non-empty result, and returns a cleaned result of greatest length (ties to
the earliest strategy); if no strategy returns non-empty raw text it fails
with `ExtractionError "Could not extract text from PDF"` rather than
returning an empty string. -/
theorem claim_c3_best_extraction (clean : String → String)
    (attempts : List (Option String)) :
    ((∀ a ∈ attempts, a = none ∨ a = some "") →
        extract_pdf clean attempts = .error ⟨"Could not extract text from PDF"⟩)
    ∧ ∀ best, extract_pdf clean attempts = .ok best →
        best ∈ ((attempts.filterMap id).filter (fun t => t ≠ "")).map clean
        ∧ ∀ r ∈ ((attempts.filterMap id).filter (fun t => t ≠ "")).map clean,
            r.length ≤ best.length := by
  constructor
  · intro hall
    have hnil : ((attempts.filterMap id).filter (fun t => t ≠ "")).map clean = [] := by
      rw [List.map_eq_nil_iff, List.filter_eq_nil_iff]
      intro t ht
      rcases List.mem_filterMap.mp ht with ⟨a, ha, hat⟩
      rcases hall a ha with rfl | rfl
      · simp at hat
      · simp at hat
        simp [hat]
    unfold extract_pdf
    rw [hnil]
  · intro best hbest
    unfold extract_pdf at hbest
    rcases hres : ((attempts.filterMap id).filter (fun t => t ≠ "")).map clean with
      _ | ⟨r, rs⟩
    · rw [hres] at hbest; simp at hbest
    · rw [hres] at hbest
      simp only [Except.ok.injEq] at hbest
      subst hbest
      constructor
      · rcases maxByLen_mem rs r with h | h
        · rw [h]; exact List.mem_cons_self _ _
        · exact List.mem_cons_of_mem _ h
      · intro u hu
        rcases List.mem_cons.mp hu with rfl | hu
        · exact (maxByLen_le rs u).1
        · exact (maxByLen_le rs r).2 u hu

/-- Witness for C3 (amended): with both strategies empty or failed the
extraction errors; with raw texts "abc" and "x" the longest cleaned text
"abc" is returned and is maximal. -/
theorem claim_c3_best_extraction_witness :
    extract_pdf id [none, some ""] = .error ⟨"Could not extract text from PDF"⟩
    ∧ ("abc" ∈ (([some "abc", some "x"].filterMap id).filter (fun t => t ≠ "")).map id
        ∧ ∀ r ∈ (([some "abc", some "x"].filterMap id).filter (fun t => t ≠ "")).map id,
            r.length ≤ "abc".length) :=
  ⟨(claim_c3_best_extraction id [none, some ""]).1 (by decide),
   (claim_c3_best_extraction id [some "abc", some "x"]).2 "abc" (by rfl)⟩

/-- `np.dot` on two fixed-dimension real vectors
(embedding_services.py line 167); Python floats are modelled over `ℝ`. -/
def dotProduct {n : Nat} (u v : Fin n → ℝ) : ℝ := ∑ i, u i * v i

/-- Embedded from `EmbeddingService.calculate_similarity`
(`src/backend/app/services/embedding_services.py` lines 141-169): embed both
texts via `embed_text` (lines 37-62, third-party
`model.encode(..., normalize_embeddings=True)`, abstracted as `enc`) and
return their dot product.  The unit normalization requested from the
library (`L2` norm 1, i.e. self-dot-product 1) is a hypothesis of the
theorems about this function. -/
def calculate_similarity {n : Nat} (enc : String → Fin n → ℝ) (a b : String) : ℝ :=
  dotProduct (enc a) (enc b)

theorem dotProduct_comm {n : Nat} (u v : Fin n → ℝ) :
    dotProduct u v = dotProduct v u := by
  unfold dotProduct
  exact Finset.sum_congr rfl (fun i _ => mul_comm _ _)

theorem dotProduct_abs_le_one {n : Nat} (u v : Fin n → ℝ)
    (hu : dotProduct u u = 1) (hv : dotProduct v v = 1) :
    |dotProduct u v| ≤ 1 := by
  have hcs := Finset.sum_mul_sq_le_sq_mul_sq Finset.univ u v
  have hu2 : (∑ i, u i ^ 2) = 1 := by
    rw [← hu]; unfold dotProduct; exact Finset.sum_congr rfl (fun i _ => sq (u i) ▸ by ring)
  have hv2 : (∑ i, v i ^ 2) = 1 := by
    rw [← hv]; unfold dotProduct; exact Finset.sum_congr rfl (fun i _ => by ring)
  have hsq : (dotProduct u v) ^ 2 ≤ 1 := by
    unfold dotProduct
    calc (∑ i, u i * v i) ^ 2 ≤ (∑ i, u i ^ 2) * (∑ i, v i ^ 2) := hcs
    _ = 1 := by rw [hu2, hv2]; ring
  exact (sq_le_one_iff_abs_le_one _).mp hsq

/-- C7: with both embeddings unit-normalized, the similarity score is the
dot product of the two unit vectors, hence lies within `[-1.01, 1.01]`; it
is symmetric (the two orders differ by less than `1e-4`, in fact coincide);
and it is reflexive (`similarity(a,a) = 1`). -/
theorem claim_c7_similarity_bounds {n : Nat} (enc : String → Fin n → ℝ)
    (a b : String)
    (ha : dotProduct (enc a) (enc a) = 1)
    (hb : dotProduct (enc b) (enc b) = 1) :
    (-(1.01 : ℝ) ≤ calculate_similarity enc a b
      ∧ calculate_similarity enc a b ≤ 1.01)
    ∧ |calculate_similarity enc a b - calculate_similarity enc b a|
        < 1 / 10000
    ∧ calculate_similarity enc a a = 1 := by
  have habs := dotProduct_abs_le_one (enc a) (enc b) ha hb
  have h1 : |calculate_similarity enc a b| ≤ 1 := habs
  have h2 := abs_le.mp h1
  refine ⟨⟨by linarith [h2.1], by linarith [h2.2]⟩, ?_, ha⟩
  have hsymm : calculate_similarity enc a b = calculate_similarity enc b a :=
    dotProduct_comm (enc a) (enc b)
  rw [hsymm, sub_self, abs_zero]
  norm_num

/-- Constant unit embedding in dimension 1, used by the C7 witness. -/
def enc0 : String → Fin 1 → ℝ := fun _ _ => 1

/-- Witness for C7 at the concrete dimension-1 unit embedding. -/
theorem claim_c7_similarity_bounds_witness :
    (-(1.01 : ℝ) ≤ calculate_similarity enc0 "cat" "kitten"
      ∧ calculate_similarity enc0 "cat" "kitten" ≤ 1.01)
    ∧ |calculate_similarity enc0 "cat" "kitten"
        - calculate_similarity enc0 "kitten" "cat"| < 1 / 10000
    ∧ calculate_similarity enc0 "cat" "cat" = 1 :=
  claim_c7_similarity_bounds enc0 "cat" "kitten"
    (by simp [dotProduct, enc0]) (by simp [dotProduct, enc0])

/-- Python exception kinds reached by the embedded handlers. -/
inductive PyError
  | attributeError (name : String)
  | keyError (key : String)
  | typeError (msg : String)
deriving DecidableEq, Repr

/-- `type(e).__name__` for the modelled exceptions (main.py line 145). -/
def pyErrTypeName : PyError → String
  | .attributeError _ => "AttributeError"
  | .keyError _ => "KeyError"
  | .typeError _ => "TypeError"

/-- `str(e)` for the modelled exceptions (rendering simplified to avoid
quoting; the handlers only splice it into the 500 detail). -/
def pyErrStr : PyError → String
  | .attributeError name => "Settings object has no attribute " ++ name
  | .keyError k => k
  | .typeError m => m

/-- Embedded from `src/backend/app/config.py` lines 10-72 (`Settings`), with
the source defaults.  Note the singular field name `allowed_file_type`
(line 43); the duplicated `gemini_max_tokens` declaration (lines 62 and 65)
collapses to one field. -/
structure Settings where
  google_api_key : String
  claude_api_key : String
  app_name : String := "Study Buddy"
  app_version : String := "0.0.1"
  debug : Bool := false
  host : String := "0.0.0.0"
  port : Nat := 8000
  max_file_size_mb : Nat := 50
  allowed_file_type : List String := ["pdf", "txt", "docx"]
  upload_dir : String := "/app/uploads"
  chroma_host : String := "chromadb"
  chroma_port : Nat := 8000
  chroma_collection : String := "study_buddy"
  embedding_model : String := "sentence-transformers/all-MiniLM-L6-v2"
  chunk_size : Nat := 1000
  chunk_overlap : Nat := 200
  llm_provider : String := "gemini"
  default_num_contexts : Nat := 4
  gemini_model : String := "gemini-2.0-flash"
  gemini_max_tokens : Nat := 8192
  claude_model : String := "claude-sonnet-4-20250514"
deriving DecidableEq, Repr

/-- Python attribute read `settings.<name>` where the reader expects a list
of strings.  `allowed_file_type` (config.py line 43) is the only defined
field of that type; pydantic stores nothing else under `extra = "ignore"`
(config.py line 71), so any other name raises `AttributeError`.  (The other
defined fields hold scalars and are read directly, never through this
accessor, by the embedded handlers.) -/
def settingsStrListAttr (s : Settings) (name : String) :
    Except PyError (List String) :=
  if name = "allowed_file_type" then .ok s.allowed_file_type
  else .error (.attributeError name)

/-- The outcome of one route handler call: a body, or an `HTTPException`
carrying its status code and detail string. -/
inductive HandlerResult (α : Type)
  | ok (body : α)
  | httpError (status : Nat) (detail : String)
deriving DecidableEq, Repr

/-- Embedded from `src/backend/app/models.py` lines 28-35 (`UploadResponse`):
the response model declares exactly these four fields — there is no
`filename` field. -/
structure UploadResponse where
  success : Bool
  message : String
  chunks_created : Nat
  document_id : String
deriving DecidableEq, Repr

/-- The field names `UploadResponse` declares (models.py lines 28-35),
i.e. the keys of the JSON object serialized to the caller.  Pydantic
silently drops unknown constructor keyword arguments under its default
`extra = "ignore"` policy, so the `filename=file.filename` argument passed
at main.py line 132 is not stored and never serialized. -/
def uploadResponseFields : List String :=
  ["success", "message", "chunks_created", "document_id"]

/-- Split a character list at every character satisfying `p`. -/
def splitOnPred (p : Char → Bool) : List Char → List (List Char)
  | [] => [[]]
  | x :: xs =>
    match splitOnPred p xs, p x with
    | r, true => [] :: r
    | [], false => [[x]]
    | y :: ys, false => (x :: y) :: ys

/-- The character list after the last dot, `none` when there is no dot
(Python `str.rfind` as used by `pathlib`). -/
def suffixAfterLastDot : List Char → Option (List Char)
  | [] => none
  | x :: xs =>
    match suffixAfterLastDot xs with
    | some r => some r
    | none => if x = '.' then some xs else none

/-- The final path component (`pathlib` name) of a filename. -/
def pathFinalComponent (filename : String) : List Char :=
  (splitOnPred (fun c => c == '/') filename.data).getLastD []

/-- `Path(filename).suffix[1:].lower()` (main.py lines 79 and 211): the
lowercased text after the last dot of the final path component; empty when
there is no dot, the only dot leads the component, or the component ends in
the dot — `pathlib` counts a suffix only at position `0 < i < len - 1`. -/
def fileExtension (filename : String) : String :=
  let base := pathFinalComponent filename
  match suffixAfterLastDot base with
  | none => ""
  | some tail =>
    if tail = [] then ""
    else if tail.length + 2 ≤ base.length then ⟨tail.map Char.toLower⟩
    else ""

/-- `Path(...).stem` (main.py line 109): the final component minus its
suffix. -/
def pathStem (filename : String) : String :=
  let base := pathFinalComponent filename
  match suffixAfterLastDot base with
  | none => ⟨base⟩
  | some tail =>
    if tail = [] then ⟨base⟩
    else if tail.length + 2 ≤ base.length then
      ⟨base.take (base.length - (tail.length + 1))⟩
    else ⟨base⟩

/-- `FileType(value)` (main.py line 87): the enum lookup raises `ValueError`
on any string outside the enumeration, modelled as `none`. -/
def fileTypeOfExt : String → Option FileType
  | "pdf" => some FileType.pdf
  | "txt" => some FileType.txt
  | "docx" => some FileType.docx
  | _ => none

/-- A multipart upload as the handler receives it; bytes are `Nat` codes. -/
structure UploadFileIn where
  filename : String
  content : List Nat
deriving DecidableEq, Repr

/-- Observable side effects of one upload-handler call, used to state that a
rejection happens before the pipeline runs. -/
structure UploadEffects where
  content_read : Bool := false
  file_saved : Bool := false
  extraction_attempted : Bool := false
  chunks_created : Nat := 0
  store_upserts : Nat := 0
deriving DecidableEq, Repr

/-- The downstream collaborators of the upload handler, abstracted:
`file_id` is the `uuid4().hex[:8]` drawn in `save_file`
(document_services.py line 50), `extract_text` the document service
extraction (which may raise), `split_text` the configured text splitter and
`enc` the embedding model. -/
structure UploadPipeline (α : Type) where
  file_id : String
  extract_text : List Nat → FileType → Except String String
  split_text : String → List String
  enc : String → List α

/-- Embedded from `upload_document` (`src/backend/app/main.py` lines
62-154).  The body runs inside `try`: an `HTTPException` raised in it is
re-raised unchanged (lines 137-138) and any other exception becomes a 500
(lines 140-154).  Control flow in source order: extension parse (79),
`settings.allowed_file_types` read (81) — an undefined attribute, the
defined field being the singular `allowed_file_type` — allowed-set test
(81-85), enum conversion (87), content read (90), size check (93-100), save
(103), extraction (106), `document_id` from the saved stem (109), chunking
(117), embedding (120), store upsert (123), response (129-135). -/
def upload_document (α : Type) (settings : Settings) (pipe : UploadPipeline α)
    (file : UploadFileIn) : HandlerResult UploadResponse × UploadEffects :=
  let ext := fileExtension file.filename
  match settingsStrListAttr settings "allowed_file_types" with
  | .error e =>
    (.httpError 500
      ("Error processing document: " ++ pyErrTypeName e ++ ": " ++ pyErrStr e), {})
  | .ok allowed =>
    if ext ∉ allowed then
      (.httpError 400 ("File type ." ++ ext ++ " not supported"), {})
    else
      match fileTypeOfExt ext with
      | none =>
        (.httpError 500
          ("Error processing document: ValueError: " ++ ext
            ++ " is not a valid FileType"), {})
      | some ftype =>
        let file_size := file.content.length
        let max_size := settings.max_file_size_mb * 1024 * 1024
        if file_size > max_size then
          (.httpError 400
            ("File is currently " ++ toString file_size ++ " bytes. Max size: "
              ++ toString settings.max_file_size_mb ++ "MB."),
           { content_read := true })
        else
          match pipe.extract_text file.content ftype with
          | .error e =>
            (.httpError 500 ("Error processing document: " ++ e),
             { content_read := true, file_saved := true,
               extraction_attempted := true })
          | .ok text =>
            let document_id := pathStem (pipe.file_id ++ "_" ++ file.filename)
            let metadata : DocumentMetaData :=
              { filename := file.filename, file_type := ftype,
                file_size_bytes := file_size }
            match create_chunks α pipe.split_text text document_id metadata with
            | .error _ =>
              (.httpError 500
                ("Error processing document: ValidationError: "
                  ++ "3 validation errors for DocumentChunk"),
               { content_read := true, file_saved := true,
                 extraction_attempted := true })
            | .ok chunks =>
              let stored := embed_chunks pipe.enc chunks
              (.ok { success := true, message := "Document processed successfully",
                     chunks_created := chunks.length, document_id := document_id },
               { content_read := true, file_saved := true,
                 extraction_attempted := true, chunks_created := chunks.length,
                 store_upserts := stored.length })

/-- The preview JSON payload (main.py lines 238-249); the float-valued
`file_size_kb` convenience field is not modelled. -/
structure PreviewResponse where
  filename : String
  file_type : String
  file_size_bytes : Nat
  extracted_length : Nat
  word_count : Nat
  line_count : Nat
  preview_first_500 : String
  preview_last_500 : String
  full_text : String
deriving DecidableEq, Repr

/-- `len(text.split())` (main.py line 234): count of maximal
whitespace-free runs. -/
def pyWordCount (s : String) : Nat :=
  ((splitOnPred Char.isWhitespace s.data).filter (fun t => t ≠ [])).length

/-- Embedded from `preview_document` (`src/backend/app/main.py` lines
199-258): the same extension parse and `settings.allowed_file_types` read
(lines 211-217) as the upload handler, then content read, save, extraction,
and the statistics payload; any non-`HTTPException` exception becomes a 500
(lines 251-258). -/
def preview_document (α : Type) (settings : Settings) (pipe : UploadPipeline α)
    (file : UploadFileIn) : HandlerResult PreviewResponse × UploadEffects :=
  let ext := fileExtension file.filename
  match settingsStrListAttr settings "allowed_file_types" with
  | .error e =>
    (.httpError 500 ("Error previewing document: " ++ pyErrStr e), {})
  | .ok allowed =>
    if ext ∉ allowed then
      (.httpError 400
        ("File type ." ++ ext ++ " not supported. Allowed: "
          ++ toString allowed), {})
    else
      match fileTypeOfExt ext with
      | none =>
        (.httpError 500
          ("Error previewing document: " ++ ext ++ " is not a valid FileType"),
         {})
      | some ftype =>
        let file_size := file.content.length
        match pipe.extract_text file.content ftype with
        | .error e =>
          (.httpError 500 ("Error previewing document: " ++ e),
           { content_read := true, file_saved := true,
             extraction_attempted := true })
        | .ok text =>
          (.ok { filename := file.filename
                 file_type := match ftype with
                   | .pdf => "pdf" | .txt => "txt" | .docx => "docx"
                 file_size_bytes := file_size
                 extracted_length := text.length
                 word_count := pyWordCount text
                 line_count := (splitOnPred (fun c => c == '\n') text.data).length
                 preview_first_500 := ⟨text.data.take 500⟩
                 preview_last_500 :=
                   if 500 < text.length then ⟨text.data.drop (text.length - 500)⟩
                   else ""
                 full_text := text },
           { content_read := true, file_saved := true,
             extraction_attempted := true })

/-- C2: both the upload handler and the preview handler read the undefined
configuration attribute `allowed_file_types` (main.py lines 81 and 213)
while `Settings` defines only the singular `allowed_file_type` (config.py
line 43); so for every settings value, every pipeline and every input file
both handlers raise `AttributeError` and answer through the generic 500
path, never successfully. -/
theorem claim_c2_settings_attribute_bug (α : Type) (settings : Settings)
    (pipe : UploadPipeline α) (file : UploadFileIn) :
    (upload_document α settings pipe file).1
        = .httpError 500
            ("Error processing document: AttributeError: "
              ++ "Settings object has no attribute allowed_file_types")
    ∧ (∀ body, (upload_document α settings pipe file).1 ≠ .ok body)
    ∧ (preview_document α settings pipe file).1
        = .httpError 500
            ("Error previewing document: "
              ++ "Settings object has no attribute allowed_file_types")
    ∧ (∀ body, (preview_document α settings pipe file).1 ≠ .ok body) := by
  refine ⟨rfl, ?_, rfl, ?_⟩
  · intro body
    show HandlerResult.httpError 500 _ ≠ .ok body
    simp
  · intro body
    show HandlerResult.httpError 500 _ ≠ .ok body
    simp

/-- Concrete settings for the handler evaluations: required API keys set,
all other fields at their config.py defaults. -/
def settings0 : Settings :=
  { google_api_key := "test_google_key", claude_api_key := "test_claude_key" }

/-- Concrete pipeline for the handler evaluations. -/
def pipe0 : UploadPipeline Unit :=
  { file_id := "abc12345"
    extract_text := fun _ _ => .ok "some text"
    split_text := fun t => [t]
    enc := fun _ => [] }

/-- C6 evaluated at its failing input: an `.exe` upload is indeed rejected
before the content is read, with no chunk created and no store mutation —
but through the 500 server-error path (the `AttributeError` of C2 fires at
main.py line 81, before the 400 unsupported-type rejection at lines 82-85
can run), not through the client-error rejection the claim requires. -/
theorem claim_c6_rejection_evaluated :
    upload_document Unit settings0 pipe0 { filename := "malware.exe", content := [77, 90] }
      = (.httpError 500
          ("Error processing document: AttributeError: "
            ++ "Settings object has no attribute allowed_file_types"),
         { content_read := false, file_saved := false,
           extraction_attempted := false, chunks_created := 0,
           store_upserts := 0 }) := by
  rfl

/-- C9 evaluated: the `UploadResponse` model (models.py lines 28-35)
declares exactly four serialized fields and no `filename`, so the response
delivered to the caller of a (hypothetically) successful ingest carries no
filename field, although the handler passes `filename=` at main.py
line 132. -/
theorem claim_c9_no_filename_field :
    uploadResponseFields = ["success", "message", "chunks_created", "document_id"]
    ∧ "filename" ∉ uploadResponseFields := by
  exact ⟨rfl, by decide⟩

/-- A value of a tool-invocation argument (the JSON the model supplies). -/
inductive ToolArg
  | str (s : String)
  | int (n : Int)
  | strList (l : List String)
deriving DecidableEq, Repr

/-- Python dict indexing `d[k]`: raises `KeyError` when the key is absent
(`tool_input["query"]`, agent_service.py lines 151, 158, 164). -/
def dictGet (d : List (String × ToolArg)) (k : String) : Except PyError ToolArg :=
  match d.find? (fun kv => kv.1 = k) with
  | some kv => .ok kv.2
  | none => .error (.keyError k)

/-- Python `d.get(k, default)` (agent_service.py lines 152, 165). -/
def dictGetD (d : List (String × ToolArg)) (k : String) (dflt : ToolArg) : ToolArg :=
  match d.find? (fun kv => kv.1 = k) with
  | some kv => kv.2
  | none => dflt

/-- A content block of the model response iterated at agent_service.py
lines 137-143: free text or a named tool invocation with its input dict. -/
inductive Block
  | text (s : String)
  | tool_use (name : String) (input : List (String × ToolArg))
deriving DecidableEq, Repr

/-- The result dict returned by a tool helper: generated content plus the
source citations stored under its "sources" key. -/
structure ToolResult where
  content : String
  sources : List String
deriving DecidableEq, Repr

/-- The terminal payload of `_execute_tools` (agent_service.py lines
176-180): answer string, accumulated sources, tool-invocation count. -/
structure AgentOutcome where
  answer : String
  sources : List String
  tool_calls : Nat
deriving DecidableEq, Repr

/-- The tool helpers called by `_execute_tools`
(`self._search_documents`, `self._multi_search`,
`self._generate_practice_questions`, `self._synthesize_answer`): they are
invoked at agent_service.py lines 150, 158, 163 and 171 but their bodies
are not part of the repository slice, so they are abstracted here. -/
structure AgentServices where
  search_documents : ToolArg → ToolArg → ToolResult
  multi_search : ToolArg → ToolResult
  generate_practice_questions : ToolArg → ToolArg → ToolResult
  synthesize_answer : String → List ToolResult → String

/-- The block loop of `StudyBuddyAgent._execute_tools`
(`src/backend/app/services/agent_service.py` lines 136-167), carrying
`final_answer`, `sources` and `tool_results`.  The loop body has no
`try`/`except`: a raised exception propagates and aborts the whole
request.  `tool_input["query"]`, `["queries"]`, `["topic"]` raise
`KeyError` when the argument is missing (lines 151, 158, 164), and a
well-formed `search_documents` call still dies at line 155, where the
result dict is indexed with the list object `sources` instead of the
string "sources" (`sources.extend(result[sources])`) — an unhashable-type
`TypeError`. -/
def executeToolsLoop (svc : AgentServices) :
    List Block → String → List String → List ToolResult →
    Except PyError (String × List String × List ToolResult)
  | [], answer, sources, results => .ok (answer, sources, results)
  | b :: bs, answer, sources, results =>
    match b with
    | .text s => executeToolsLoop svc bs (answer ++ s) sources results
    | .tool_use name input =>
      if name = "search_documents" then
        match dictGet input "query" with
        | .error e => .error e
        | .ok q =>
          let result := svc.search_documents q (dictGetD input "num_results" (.int 4))
          let _ := results ++ [result]
          .error (.typeError "unhashable type: list")
      else if name = "multi_search" then
        match dictGet input "queries" with
        | .error e => .error e
        | .ok qs =>
          let result := svc.multi_search qs
          executeToolsLoop svc bs answer (sources ++ result.sources)
            (results ++ [result])
      else if name = "generate_practice_questions" then
        match dictGet input "topic" with
        | .error e => .error e
        | .ok topic =>
          let result := svc.generate_practice_questions topic
            (dictGetD input "num_questions" (.int 5))
          executeToolsLoop svc bs answer sources (results ++ [result])
      else
        executeToolsLoop svc bs answer sources results

/-- Embedded from `StudyBuddyAgent._execute_tools`
(`src/backend/app/services/agent_service.py` lines 129-180): run the block
loop, then, when any tool produced a result, synthesize the final answer
from the accumulated tool results (lines 169-174); return the terminal
payload (lines 176-180).  An exception escaping the loop escapes the whole
function. -/
def execute_tools (svc : AgentServices) (response_content : List Block)
    (original_query : String) : Except PyError AgentOutcome :=
  match executeToolsLoop svc response_content "" [] [] with
  | .error e => .error e
  | .ok (answer, sources, results) =>
    match results with
    | [] => .ok { answer := answer, sources := sources, tool_calls := 0 }
    | _ :: _ =>
      .ok { answer := svc.synthesize_answer original_query results
            sources := sources
            tool_calls := results.length }

/-- Concrete tool helpers for the C10 evaluation. -/
def svc0 : AgentServices :=
  { search_documents := fun _ _ => { content := "r", sources := ["s1"] }
    multi_search := fun _ => { content := "m", sources := ["s2"] }
    generate_practice_questions := fun _ _ => { content := "p", sources := [] }
    synthesize_answer := fun _ _ => "synthesized" }

/-- C10 evaluated at its failing input: a `search_documents` invocation with
an empty argument dict (missing the required "query") makes the whole
request abort with `KeyError` — no recorded per-tool error, no synthesis,
no terminal answer/sources/count — even when a later well-formed
`multi_search` invocation would have succeeded; and even a well-formed
`search_documents` call aborts with the line-155 `TypeError`. -/
theorem claim_c10_malformed_tool_aborts :
    execute_tools svc0 [Block.tool_use "search_documents" []] "q"
      = .error (PyError.keyError "query")
    ∧ execute_tools svc0
        [Block.tool_use "search_documents" [],
         Block.tool_use "multi_search" [("queries", ToolArg.strList ["a"])]] "q"
      = .error (PyError.keyError "query")
    ∧ execute_tools svc0
        [Block.tool_use "search_documents" [("query", ToolArg.str "x")]] "q"
      = .error (PyError.typeError "unhashable type: list") :=
  ⟨rfl, rfl, rfl⟩

/-- Raw-character fallback split: cut `csize`-character pieces off the
front; `fuel` (instantiated with the text length) bounds the recursion. -/
def hardSplitAux (csize : Nat) : Nat → List Char → List (List Char)
  | _, [] => []
  | 0, x :: xs => [x :: xs]
  | fuel + 1, x :: xs =>
    if (x :: xs).length ≤ csize then [x :: xs]
    else (x :: xs).take csize :: hardSplitAux csize fuel ((x :: xs).drop csize)

/-- Modelled from the spec: the separator priority list of section 4.2 —
"paragraph breaks, then line breaks, then sentence-ish punctuation, then
raw characters".  Paragraph breaks (blank lines) are subsumed by the
line-break class in this single-character model; raw characters are the
`hardSplitAux` base case. -/
def sepPreds : List (Char → Bool) :=
  [fun c => c == '\n', fun c => c == '.' || c == '!' || c == '?']

/-- Modelled from the spec (section 4.2): split the text recursively by the
separator priority list while the piece exceeds the maximum chunk size; a
separator that yields at most one non-empty piece defers to the next one,
and with no separators left the text is cut at raw character boundaries. -/
def splitRecAux (csize : Nat) : List (Char → Bool) → List Char → List (List Char)
  | [], text =>
    if text.length ≤ csize then [text]
    else hardSplitAux csize text.length text
  | p :: rest, text =>
    if text.length ≤ csize then [text]
    else
      match (splitOnPred p text).filter (fun t => t ≠ []) with
      | [] => splitRecAux csize rest text
      | [_] => splitRecAux csize rest text
      | q1 :: q2 :: qs =>
        ((q1 :: q2 :: qs).map (fun q => splitRecAux csize rest q)).flatten

/-- Modelled from the spec (section 4.2): greedily merge adjacent small
pieces back up to the maximum chunk size.  The configured overlap carry-over
only duplicates text at chunk boundaries and cannot change whether a chunk
exists, so it is not modelled. -/
def mergeAux (csize : Nat) : List Char → List (List Char) → List (List Char)
  | cur, [] => if cur = [] then [] else [cur]
  | cur, p :: ps =>
    if (cur ++ p).length ≤ csize then mergeAux csize (cur ++ p) ps
    else if cur = [] then mergeAux csize p ps
    else cur :: mergeAux csize p ps

/-- Modelled from the spec: the repository delegates splitting to the
third-party langchain `RecursiveCharacterTextSplitter`
(document_services.py lines 31-35), whose code is not part of the
repository; section 4.2 describes it as a recursive separator-priority
splitter with bounded chunk size, never producing zero chunks for
non-empty input and producing none for empty input. -/
def specSplit (csize : Nat) (text : String) : List String :=
  if text.data = [] then []
  else (mergeAux csize [] (splitRecAux csize sepPreds text.data)).map
    (fun l => ⟨l⟩)

theorem hardSplitAux_sound (csize : Nat) (hc : 0 < csize) :
    ∀ (fuel : Nat) (l : List Char), l ≠ [] →
      hardSplitAux csize fuel l ≠ []
      ∧ ∀ u ∈ hardSplitAux csize fuel l, u ≠ [] := by
  intro fuel
  induction fuel with
  | zero =>
    intro l hl
    match l, hl with
    | x :: xs, _ =>
      refine ⟨?_, ?_⟩
      · simp [hardSplitAux]
      · intro u hu
        simp only [hardSplitAux, List.mem_singleton] at hu
        simp [hu]
  | succ fuel ih =>
    intro l hl
    match l, hl with
    | x :: xs, _ =>
      unfold hardSplitAux
      split
      · exact ⟨by simp, by intro u hu; simp at hu; simp [hu]⟩
      · rename_i hlen
        have hdrop : (x :: xs).drop csize ≠ [] := by
          intro hnil
          have hl2 := congrArg List.length hnil
          rw [List.length_drop] at hl2
          simp only [List.length_nil] at hl2
          simp only [not_le] at hlen
          omega
        have htake : (x :: xs).take csize ≠ [] := by
          intro hnil
          rw [List.take_eq_nil_iff] at hnil
          rcases hnil with h | h
          · omega
          · simp at h
        have hrec := ih ((x :: xs).drop csize) hdrop
        refine ⟨by simp, ?_⟩
        intro u hu
        rcases List.mem_cons.mp hu with rfl | hu
        · exact htake
        · exact hrec.2 u hu

theorem splitRecAux_sound (csize : Nat) (hc : 0 < csize) :
    ∀ (seps : List (Char → Bool)) (text : List Char), text ≠ [] →
      splitRecAux csize seps text ≠ []
      ∧ ∀ u ∈ splitRecAux csize seps text, u ≠ [] := by
  intro seps
  induction seps with
  | nil =>
    intro text ht
    unfold splitRecAux
    split
    · exact ⟨by simp, by intro u hu; simp at hu; simp [hu, ht]⟩
    · exact hardSplitAux_sound csize hc text.length text ht
  | cons p rest ih =>
    intro text ht
    unfold splitRecAux
    split
    · exact ⟨by simp, by intro u hu; simp at hu; simp [hu, ht]⟩
    · split
      · exact ih text ht
      · exact ih text ht
      · rename_i q1 q2 qs hpieces
        have hqmem : ∀ q ∈ q1 :: q2 :: qs, q ≠ [] := by
          intro q hq
          have hqf : q ∈ (splitOnPred p text).filter (fun t => t ≠ []) := by
            rw [hpieces]; exact hq
          have := List.of_mem_filter hqf
          simpa using this
        have hq1 := ih q1 (hqmem q1 (by simp))
        constructor
        · intro hflat
          rw [List.flatten_eq_nil_iff] at hflat
          exact hq1.1 (hflat (splitRecAux csize rest q1) (by simp))
        · intro u hu
          rw [List.mem_flatten] at hu
          rcases hu with ⟨sub, hsub, husub⟩
          rw [List.mem_map] at hsub
          rcases hsub with ⟨q, hqin, rfl⟩
          exact (ih q (hqmem q hqin)).2 u husub

theorem mergeAux_ne_nil (csize : Nat) :
    ∀ (ps : List (List Char)) (cur : List Char), cur ≠ [] →
      mergeAux csize cur ps ≠ [] := by
  intro ps
  induction ps with
  | nil =>
    intro cur hcur
    simp [mergeAux, hcur]
  | cons p ps ih =>
    intro cur hcur
    show (if (cur ++ p).length ≤ csize then mergeAux csize (cur ++ p) ps
          else if cur = [] then mergeAux csize p ps
          else cur :: mergeAux csize p ps) ≠ []
    rw [if_neg hcur]
    split
    · exact ih (cur ++ p) (by simp [hcur])
    · simp

theorem mergeAux_start_ne_nil (csize : Nat) :
    ∀ (ps : List (List Char)), ps ≠ [] → (∀ q ∈ ps, q ≠ []) →
      mergeAux csize [] ps ≠ [] := by
  intro ps hps hall
  match ps, hps with
  | p :: ps, _ =>
    have hp : p ≠ [] := hall p (by simp)
    show (if (([] : List Char) ++ p).length ≤ csize then mergeAux csize ([] ++ p) ps
          else if ([] : List Char) = [] then mergeAux csize p ps
          else ([] : List Char) :: mergeAux csize p ps) ≠ []
    split
    · simpa using mergeAux_ne_nil csize ps p hp
    · rw [if_pos rfl]
      exact mergeAux_ne_nil csize ps p hp

/-- C8 evaluated against the pydantic model: with the spec-modelled
splitter every non-empty text yields at least one segment, so the claimed
"at least one chunk" outcome is the evident intent — but the pydantic
`DocumentChunk` construction rejects the int-valued `chunk_index`,
`start_char` and `end_char` arguments (see C1) and `create_chunks` raises
`ValidationError` instead of producing any chunk for non-empty input; only
the empty-input half of the claim holds, returning the empty chunk list.
(`spec-modelled`: the splitter itself is third-party langchain code,
absent from the repository, so it is modelled from spec section 4.2.) -/
theorem claim_c8_nonempty_input_raises (csize : Nat) (text docid : String)
    (md : DocumentMetaData) (hc : 0 < csize) :
    (text ≠ "" →
        create_chunks Unit (specSplit csize) text docid md
          = .error chunkStrFieldErrors)
    ∧ create_chunks Unit (specSplit csize) "" docid md = .ok [] := by
  constructor
  · intro ht
    have hdata : text.data ≠ [] := by
      intro h
      apply ht
      cases text
      simp at h
      simp [h]
    have hsplit := splitRecAux_sound csize hc sepPreds text.data hdata
    have hmerge := mergeAux_start_ne_nil csize (splitRecAux csize sepPreds text.data)
      hsplit.1 hsplit.2
    have hne : specSplit csize text ≠ [] := by
      unfold specSplit
      rw [if_neg hdata]
      intro hmap
      rw [List.map_eq_nil_iff] at hmap
      exact hmerge hmap
    unfold create_chunks
    rcases hs : specSplit csize text with _ | ⟨t, ts⟩
    · exact absurd hs hne
    · exact create_chunksAux_cons Unit docid md t ts 0 0
  · rfl

/-- Witness for C8: the two-character text "hi" with the default chunk size
1000 raises the collected `ValidationError`, and the empty text returns the
empty chunk list. -/
theorem claim_c8_nonempty_input_raises_witness :
    create_chunks Unit (specSplit 1000) "hi" "d" md0 = .error chunkStrFieldErrors
    ∧ create_chunks Unit (specSplit 1000) "" "d" md0 = .ok [] :=
  ⟨(claim_c8_nonempty_input_raises 1000 "hi" "d" md0 (by decide)).1 (by decide),
   (claim_c8_nonempty_input_raises 1000 "" "d" md0 (by decide)).2⟩

end StudyBuddy
